import Mathlib

/-!
Shallow embedding of the Sample_2024 road-viewer repository:
the MapillaryJS data provider (`src/my-road-viewer/data-provider.js`)
and the navigation controller / display-refresh logic (`src/app.js`,
which holds two variants: a graph-based viewer and a flat-image viewer).

Conventions of the embedding:
* JS `Promise.resolve` / `Promise.reject` are modelled by `Except String`.
* JS `Map` objects are modelled as association lists in insertion order,
  with a last-binding-wins getter (`jsMapGet`) mirroring `Map.set` overwrite.
* Angles: the source stores rotations in radians, always written as
  `degrees * Math.PI / 180`; the embedding stores the degree values
  (the factor `π / 180` is constant and shared by every component),
  so `computed_rotation = (90, 0, yaw)` stands for `[π/2, 0, yaw·π/180]`.
* `captured_at` (`Date.now()`) and `console.log` side effects are dropped:
  no claim mentions them.
* Coordinates are modelled as rationals.
-/

namespace RoadViewer

/-- A survey point as handed to the core after CSV load
(`dynamicTyping` has already turned the numeric columns into numbers). -/
structure SurveyPoint where
  id : String
  lat : ℚ
  long : ℚ
  heading_front : ℕ
  front : String
  rear : String
  front_width : ℕ
  front_height : ℕ
  rear_width : ℕ
  rear_height : ℕ
deriving DecidableEq, Repr

/-- The image entity produced by `CustomDataProvider._createImageEnt`.
`computed_rotation` holds degree values (see module conventions). -/
structure ImageEnt where
  id : String
  sequenceId : String
  merge_id : String
  computed_geometry : ℚ × ℚ
  geometry : ℚ × ℚ
  computed_rotation : ℕ × ℕ × ℕ
  camera_type : String
  width : ℕ
  height : ℕ
  thumbUrl : String
  point_id : String
deriving DecidableEq, Repr

/-- `_createImageEnt(id, sequenceId, lat, lng, headingRad, width, height, imageUrl, pointId)`.
The heading argument is taken in degrees (the caller converts to radians
by the constant factor `π/180`, which the embedding factors out). -/
def createImageEnt (id sequenceId : String) (lat lng : ℚ) (headingDeg : ℕ)
    (width height : ℕ) (imageUrl pointId : String) : ImageEnt :=
  { id := id
    sequenceId := sequenceId
    merge_id := "sample_2024"
    computed_geometry := (lat, lng)
    geometry := (lat, lng)
    computed_rotation := (90, 0, headingDeg)
    camera_type := "perspective"
    width := width
    height := height
    thumbUrl := imageUrl
    point_id := pointId }

/-- The front image built per point in `_processSurveyData`
(`headingRad = point.heading_front * π/180`). -/
def frontImage (p : SurveyPoint) : ImageEnt :=
  createImageEnt ("point" ++ p.id ++ "_front") "seq_front" p.lat p.long
    p.heading_front p.front_width p.front_height ("./images/" ++ p.front) p.id

/-- The rear image built per point in `_processSurveyData`
(`rearHeadingRad = ((point.heading_front + 180) % 360) * π/180`). -/
def rearImage (p : SurveyPoint) : ImageEnt :=
  createImageEnt ("point" ++ p.id ++ "_rear") "seq_rear" p.lat p.long
    ((p.heading_front + 180) % 360) p.rear_width p.rear_height
    ("./images/" ++ p.rear) p.id

/-- The `frontImages` array accumulated by the `forEach` loop. -/
def frontImages (data : List SurveyPoint) : List ImageEnt :=
  data.map frontImage

/-- The `rearImages` array accumulated by the `forEach` loop. -/
def rearImages (data : List SurveyPoint) : List ImageEnt :=
  data.map rearImage

/-- `allImages = [...frontImages, ...rearImages]`. -/
def allImages (data : List SurveyPoint) : List ImageEnt :=
  frontImages data ++ rearImages data

/-- JS `Map` getter over an insertion-ordered association list:
the binding set last wins, as with repeated `Map.set` on one key. -/
def jsMapGet {α : Type} : List (String × α) → String → Option α
  | [], _ => none
  | kv :: rest, k =>
    match jsMapGet rest k with
    | some v => some v
    | none => if kv.1 = k then some kv.2 else none

/-- `this.images`: per point, `set(frontImage.id, frontImage)` then
`set(rearImage.id, rearImage)`, in dataset order. -/
def imagesMap (data : List SurveyPoint) : List (String × ImageEnt) :=
  data.flatMap fun p =>
    [((frontImage p).id, frontImage p), ((rearImage p).id, rearImage p)]

/-- A sequence record as stored in `this.sequences`. -/
structure SequenceEnt where
  id : String
  image_ids : List String
deriving DecidableEq, Repr

/-- The `seq_front` record: `image_ids = frontImages.map(img => img.id)`. -/
def seqFront (data : List SurveyPoint) : SequenceEnt :=
  { id := "seq_front", image_ids := (frontImages data).map (·.id) }

/-- The `seq_rear` record: `image_ids = rearImages.map(img => img.id)`. -/
def seqRear (data : List SurveyPoint) : SequenceEnt :=
  { id := "seq_rear", image_ids := (rearImages data).map (·.id) }

/-- `this.sequences`, holding exactly the two sequence records. -/
def sequencesMap (data : List SurveyPoint) : List (String × SequenceEnt) :=
  [("seq_front", seqFront data), ("seq_rear", seqRear data)]

/-- `getSequence(sequenceId)`: resolve from `this.sequences`, else
reject with `Sequence ${sequenceId} not found`. -/
def getSequence (data : List SurveyPoint) (sequenceId : String) :
    Except String SequenceEnt :=
  match jsMapGet (sequencesMap data) sequenceId with
  | some s => Except.ok s
  | none => Except.error ("Sequence " ++ sequenceId ++ " not found")

/-- One element of the `getImages` response:
`{ node: images.get(id) | null, node_id: id }`. -/
structure ImageResult where
  node : Option ImageEnt
  node_id : String
deriving DecidableEq, Repr

/-- `getImages(imageIds)`: map each id to its node or `null`, resolving. -/
def getImages (data : List SurveyPoint) (imageIds : List String) :
    Except String (List ImageResult) :=
  Except.ok (imageIds.map fun id =>
    { node := jsMapGet (imagesMap data) id, node_id := id })

/-- The cell id the spatial index assigns to an image:
`this._geometry.lngLatToCellId(computed_geometry)`, an external
deterministic function of (lat, lng), taken as the parameter `cellOf`. -/
def imageCell (cellOf : ℚ → ℚ → ℕ) (img : ImageEnt) : ℕ :=
  cellOf img.computed_geometry.1 img.computed_geometry.2

/-- One iteration of the cell-bucketing `forEach`:
create the bucket if absent, then push the image onto it. -/
def cellStep (cellOf : ℚ → ℚ → ℕ) (m : List (ℕ × List ImageEnt))
    (img : ImageEnt) : List (ℕ × List ImageEnt) :=
  let c := imageCell cellOf img
  if m.any (fun kv => kv.1 = c) then
    m.map fun kv => if kv.1 = c then (kv.1, kv.2 ++ [img]) else kv
  else
    m ++ [(c, [img])]

/-- `this.cells`: bucket `allImages` by spatial cell id. -/
def buildCells (cellOf : ℚ → ℚ → ℕ) (imgs : List ImageEnt) :
    List (ℕ × List ImageEnt) :=
  imgs.foldl (cellStep cellOf) []

/-- Bucket lookup: `cells.has(cellId) ? cells.get(cellId) : []`
(keys are unique by construction, so first match is the binding). -/
def cellGet (m : List (ℕ × List ImageEnt)) (c : ℕ) : List ImageEnt :=
  match m.find? (fun kv => kv.1 = c) with
  | some kv => kv.2
  | none => []

/-- `getCoreImages(cellId)`: resolve `{ cell_id, images }`. -/
def getCoreImages (cellOf : ℚ → ℚ → ℕ) (data : List SurveyPoint)
    (cellId : ℕ) : Except String (ℕ × List ImageEnt) :=
  Except.ok (cellId, cellGet (buildCells cellOf (allImages data)) cellId)

/-- A resolved HTTP response (`fetch` fulfilled). -/
structure HttpResponse where
  status : ℕ
  body : List ℕ
deriving DecidableEq, Repr

/-- `response.ok`: status in the 200–299 range. -/
def respOk (r : HttpResponse) : Bool :=
  200 ≤ r.status && r.status < 300

/-- Outcome of a `fetch` call: a response, or a rejected promise
(transport error) carrying the engine's error message. -/
inductive FetchResult where
  | response (r : HttpResponse)
  | transportError (msg : String)
deriving DecidableEq, Repr

/-- `getImageBuffer(url)`: one `fetch(url)`; if `!response.ok`, throw
`Failed to load image: ${url}`; otherwise resolve the body bytes; the
`catch` logs and rethrows the same error unchanged. The first component
records the URLs fetched during the call (exactly the one `fetch`). -/
def getImageBuffer (fetch : String → FetchResult) (url : String) :
    List String × Except String (List ℕ) :=
  match fetch url with
  | FetchResult.response r =>
    if respOk r then ([url], Except.ok r.body)
    else ([url], Except.error ("Failed to load image: " ++ url))
  | FetchResult.transportError msg => ([url], Except.error msg)

/-! ### CSV loader (`loadCSVData`, both variants of `src/app.js`)

`Papa.parse` with `dynamicTyping` yields rows whose fields are JS values:
a number, a string, or `undefined` for a missing column. The loader
keeps a row only when every required field is *truthy*. -/

/-- A JS field value after `dynamicTyping`. -/
inductive JSVal where
  | undef
  | num (n : ℤ)
  | str (s : String)
deriving DecidableEq, Repr

/-- JS truthiness for the values above: `undefined` and `0` and `""`
are falsy, everything else truthy. -/
def truthy : JSVal → Bool
  | JSVal.undef => false
  | JSVal.num n => n ≠ 0
  | JSVal.str s => s ≠ ""

/-- One parsed CSV row (the columns the validity filters read). -/
structure CsvRow where
  id : JSVal
  lat : JSVal
  long : JSVal
  heading_front : JSVal
  front : JSVal
  rear : JSVal
deriving DecidableEq, Repr

/-- Graph-variant filter: `row.id && row.lat && row.long && row.heading_front`. -/
def validRowGraph (r : CsvRow) : Bool :=
  truthy r.id && truthy r.lat && truthy r.long && truthy r.heading_front

/-- Flat-image-variant filter: the graph-variant fields
plus `row.front && row.rear`. -/
def validRowFlat (r : CsvRow) : Bool :=
  truthy r.id && truthy r.lat && truthy r.long && truthy r.heading_front
    && truthy r.front && truthy r.rear

/-! ### Navigation controller (`src/app.js`)

Globals `currentPointIndex`, `isShowingFront`, `isViewerMode`, mutated
only by the event handlers; modelled as a state value and a step
function over inbound events. -/

/-- The mutable session state (`currentPointIndex`, `isShowingFront`,
`isViewerMode`). -/
structure NavState where
  idx : ℕ
  front : Bool
  viewer : Bool
deriving DecidableEq, Repr

/-- Inbound events: map-marker click (carrying the marker's dataset
index), viewer close / minimap click, prev/next buttons, the
front-rear switch, and the engine-reported image change (carrying the
image's `point_id` and `id`). -/
inductive NavEv where
  | markerClick (i : ℕ)
  | closeViewer
  | prev
  | next
  | switchView
  | engineImage (pointId : String) (imageId : String)
deriving DecidableEq, Repr

/-- `image.id.includes('_front')`. -/
def strIncludes (s sub : String) : Bool :=
  decide (sub.toList <:+: s.toList)

/-- The state transition of each handler:
* marker click: `currentPointIndex = index; isShowingFront = true;`
  then `enterViewerMode()` sets `isViewerMode = true`;
* `exitViewerMode()`: `isViewerMode = false`;
* prev: `if (currentPointIndex > 0) currentPointIndex--`;
* next: `if (currentPointIndex < surveyData.length - 1) currentPointIndex++`;
* switch view: `isShowingFront = !isShowingFront`;
* engine `image` event: `findIndex(p => p.id === image.point_id)`;
  when found, overwrite index and side; when not, leave state alone. -/
def step (data : List SurveyPoint) (s : NavState) : NavEv → NavState
  | NavEv.markerClick i => { idx := i, front := true, viewer := true }
  | NavEv.closeViewer => { s with viewer := false }
  | NavEv.prev => if s.idx > 0 then { s with idx := s.idx - 1 } else s
  | NavEv.next =>
    if s.idx < data.length - 1 then { s with idx := s.idx + 1 } else s
  | NavEv.switchView => { s with front := !s.front }
  | NavEv.engineImage pointId imageId =>
    match data.findIdx? (fun p => p.id = pointId) with
    | some i => { s with idx := i, front := strIncludes imageId "_front" }
    | none => s

/-- Which events can actually fire: a marker click only comes from one
of the markers created per dataset index (`surveyData.forEach`), so its
index is a dataset index; every other event is unconstrained. -/
def EvValid (data : List SurveyPoint) : NavEv → Prop
  | NavEv.markerClick i => i < data.length
  | _ => True

/-- States reachable from the initial state
(`currentPointIndex = 0`, `isShowingFront = true`, map mode). -/
inductive Reachable (data : List SurveyPoint) : NavState → Prop
  | init : Reachable data { idx := 0, front := true, viewer := false }
  | next (s : NavState) (e : NavEv) : Reachable data s → EvValid data e →
      Reachable data (step data s e)

/-- The info panel rendered by `updateViewerInfo` (both variants):
1-based position, total, side label, displayed heading, and the
prev/next disabled flags. `none` when the index is out of range
(out-of-range access would throw in the source). -/
structure InfoPanel where
  position : ℕ
  total : ℕ
  sideLabel : String
  heading : ℕ
  prevDisabled : Bool
  nextDisabled : Bool
deriving DecidableEq, Repr

/-- `updateViewerInfo()`: heading shown is `point.heading_front` for the
front side and `(point.heading_front + 180) % 360` for the rear. -/
def updateViewerInfo (data : List SurveyPoint) (s : NavState) :
    Option InfoPanel :=
  (data[s.idx]?).map fun p =>
    { position := s.idx + 1
      total := data.length
      sideLabel := if s.front then "Front" else "Rear"
      heading := if s.front then p.heading_front
                 else (p.heading_front + 180) % 360
      prevDisabled := s.idx = 0
      nextDisabled := s.idx = data.length - 1 }

/-- The image id the viewer surface displays for the current state:
`point${surveyData[currentPointIndex].id}_${view}` (graph variant
`viewer.moveTo`; the flat variant loads `point.front` / `point.rear`,
a bijective renaming of the same (point, side) pair). -/
def displayedImageId (data : List SurveyPoint) (s : NavState) :
    Option String :=
  (data[s.idx]?).map fun p =>
    "point" ++ p.id ++ "_" ++ (if s.front then "front" else "rear")

/-- The four display-refresh commands of §4.2:
imagery surface, info panel, minimap recenter + red marker,
map-marker highlight restyle. -/
inductive Refresh where
  | imagery
  | infoPanel
  | minimap
  | markerHighlight
deriving DecidableEq, Repr

/-- The refresh commands each handler issues after mutating state:
* marker click → `enterViewerMode()`: image load, `updateViewerInfo`,
  `updateMinimap`, `highlightMarker` (deferred behind one-shot engine
  initialization on first entry in the graph variant);
* close viewer → `exitViewerMode()`: `highlightMarker` (plus a main-map
  recenter, which is none of the four);
* prev/next (guard passed): image load, `updateViewerInfo`,
  `updateMinimap`, `highlightMarker`; guard failed: nothing;
* switch view: image load and `updateViewerInfo` only;
* engine `image` event (point found and `isViewerMode`): the engine's
  own move updated the surface, then `updateViewerInfo`, `updateMinimap`,
  `highlightMarker`; otherwise nothing. -/
def performedRefreshes (data : List SurveyPoint) (s : NavState) :
    NavEv → List Refresh
  | NavEv.markerClick _ =>
    [Refresh.imagery, Refresh.infoPanel, Refresh.minimap,
     Refresh.markerHighlight]
  | NavEv.closeViewer => [Refresh.markerHighlight]
  | NavEv.prev =>
    if s.idx > 0 then
      [Refresh.imagery, Refresh.infoPanel, Refresh.minimap,
       Refresh.markerHighlight]
    else []
  | NavEv.next =>
    if s.idx < data.length - 1 then
      [Refresh.imagery, Refresh.infoPanel, Refresh.minimap,
       Refresh.markerHighlight]
    else []
  | NavEv.switchView => [Refresh.imagery, Refresh.infoPanel]
  | NavEv.engineImage pointId _ =>
    match data.findIdx? (fun p => p.id = pointId) with
    | some _ =>
      if s.viewer then
        [Refresh.imagery, Refresh.infoPanel, Refresh.minimap,
         Refresh.markerHighlight]
      else []
    | none => []

/-! ### Helper lemmas -/

/-- A key absent from the association list resolves to `none`. -/
theorem jsMapGet_eq_none {α : Type} (m : List (String × α)) (k : String)
    (h : k ∉ m.map Prod.fst) : jsMapGet m k = none := by
  induction m with
  | nil => rfl
  | cons kv rest ih =>
    simp only [List.map_cons, List.mem_cons, not_or] at h
    simp only [jsMapGet, ih h.2]
    rw [if_neg fun hk => h.1 hk.symm]

/-- With pairwise-distinct keys, the getter returns the stored binding. -/
theorem jsMapGet_of_nodup {α : Type} (m : List (String × α)) (k : String)
    (v : α) (hnd : (m.map Prod.fst).Nodup) (hmem : (k, v) ∈ m) :
    jsMapGet m k = some v := by
  induction m with
  | nil => cases hmem
  | cons kv rest ih =>
    simp only [List.map_cons, List.nodup_cons] at hnd
    rcases List.mem_cons.mp hmem with h | h
    · subst h
      simp only [jsMapGet, jsMapGet_eq_none rest k hnd.1]
      simp
    · simp only [jsMapGet, ih hnd.2 h]

/-- One bucketing step appends the image to the bucket of its own cell
and leaves every other bucket unchanged. -/
theorem cellGet_cellStep (cellOf : ℚ → ℚ → ℕ) (m : List (ℕ × List ImageEnt))
    (img : ImageEnt) (c : ℕ) :
    cellGet (cellStep cellOf m img) c =
      if imageCell cellOf img = c then cellGet m c ++ [img]
      else cellGet m c := by
  by_cases hany : m.any (fun kv => kv.1 = imageCell cellOf img)
  · have hstep : cellStep cellOf m img =
        m.map fun kv =>
          if kv.1 = imageCell cellOf img then (kv.1, kv.2 ++ [img]) else kv := by
      simp only [cellStep, hany, if_true]
    rw [hstep]
    unfold cellGet
    rw [List.find?_map]
    have hpred : ((fun kv : ℕ × List ImageEnt => decide (kv.1 = c)) ∘
        fun kv => if kv.1 = imageCell cellOf img then (kv.1, kv.2 ++ [img]) else kv)
        = fun kv : ℕ × List ImageEnt => decide (kv.1 = c) := by
      funext kv
      by_cases h : kv.1 = imageCell cellOf img <;> simp [h]
    rw [hpred]
    cases hfind : m.find? (fun kv => kv.1 = c) with
    | none =>
      have hnone : ∀ kv ∈ m, kv.1 ≠ c := by
        intro kv hkv
        have := List.find?_eq_none.mp hfind kv hkv
        simpa using this
      by_cases hc : imageCell cellOf img = c
      · rcases List.any_eq_true.mp hany with ⟨kv, hkv, hkc⟩
        exact absurd (by simpa [hc] using hkc) (hnone kv hkv)
      · simp [hc]
    | some kv =>
      have hkc : kv.1 = c := by simpa using List.find?_some hfind
      by_cases hc : imageCell cellOf img = c
      · simp [hkc, hc]
      · have : ¬ kv.1 = imageCell cellOf img := by
          rw [hkc]; exact fun h => hc h.symm
        simp [this, hc]
  · have hstep : cellStep cellOf m img = m ++ [(imageCell cellOf img, [img])] := by
      simp only [cellStep, hany]
      simp
    rw [hstep]
    unfold cellGet
    rw [List.find?_append]
    have hnone : ∀ kv ∈ m, kv.1 ≠ imageCell cellOf img := by
      intro kv hkv hk
      exact hany (List.any_eq_true.mpr ⟨kv, hkv, by simpa using hk⟩)
    by_cases hc : imageCell cellOf img = c
    · have hfind : m.find? (fun kv => kv.1 = c) = none := by
        rw [List.find?_eq_none]
        intro kv hkv
        simpa [hc] using hnone kv hkv
      simp [hfind, hc]
    · cases hfind : m.find? (fun kv => kv.1 = c) with
      | none => simp [hc]
      | some kv => simp [hc]

/-- Folding the bucketing step over a list of images appends, to each
bucket, exactly the images whose cell is that bucket's key. -/
theorem cellGet_foldl (cellOf : ℚ → ℚ → ℕ) (imgs : List ImageEnt)
    (m : List (ℕ × List ImageEnt)) (c : ℕ) :
    cellGet (imgs.foldl (cellStep cellOf) m) c =
      cellGet m c ++ imgs.filter (fun i => imageCell cellOf i = c) := by
  induction imgs generalizing m with
  | nil => simp
  | cons img rest ih =>
    simp only [List.foldl_cons, ih, cellGet_cellStep, List.filter_cons]
    by_cases h : imageCell cellOf img = c
    · simp [h, List.append_assoc]
    · simp [h]

/-- The bucket for a cell holds exactly the images mapped to that cell. -/
theorem cells_char (cellOf : ℚ → ℚ → ℕ) (imgs : List ImageEnt) (c : ℕ) :
    cellGet (buildCells cellOf imgs) c =
      imgs.filter (fun i => imageCell cellOf i = c) := by
  have h := cellGet_foldl cellOf imgs [] c
  simpa [buildCells, cellGet] using h

/-! ### Concrete sample data (for witnesses and counterexamples),
mirroring the 3-point scenario of the specification. -/

/-- A concrete survey point with the given id and front heading. -/
def samplePoint (id : String) (h : ℕ) : SurveyPoint :=
  { id := id, lat := 1, long := 2, heading_front := h
    front := id ++ "f.jpg", rear := id ++ "r.jpg"
    front_width := 100, front_height := 50
    rear_width := 100, rear_height := 50 }

/-- The spec's 3-point scenario: ids `"1","2","3"`, headings 90, 180, 270. -/
def sampleData : List SurveyPoint :=
  [samplePoint "1" 90, samplePoint "2" 180, samplePoint "3" 270]

/-! ### Claim theorems -/

/-- C1: for every survey point, the rear heading in degrees — the value
the provider stores in the rear ImageEntity's rotation yaw before the
constant radian conversion, and the heading the info panel displays on
the rear side — equals `(front heading in degrees + 180) mod 360`. -/
theorem rear_heading_invariant (data : List SurveyPoint) (p : SurveyPoint)
    (s : NavState) (hp : data[s.idx]? = some p) (hs : s.front = false) :
    (rearImage p).computed_rotation.2.2 = (p.heading_front + 180) % 360 ∧
    (updateViewerInfo data s).map (·.heading) =
      some ((p.heading_front + 180) % 360) := by
  refine ⟨rfl, ?_⟩
  simp [updateViewerInfo, hp, hs]

/-- Witness for C1 at the boundary headings 0 and 359. -/
theorem rear_heading_invariant_witness :
    ((rearImage (samplePoint "1" 0)).computed_rotation.2.2 = (0 + 180) % 360 ∧
      (updateViewerInfo [samplePoint "1" 0]
        { idx := 0, front := false, viewer := true }).map (·.heading) =
        some ((0 + 180) % 360)) ∧
    ((rearImage (samplePoint "2" 359)).computed_rotation.2.2 =
        (359 + 180) % 360 ∧
      (updateViewerInfo [samplePoint "2" 359]
        { idx := 0, front := false, viewer := true }).map (·.heading) =
        some ((359 + 180) % 360)) :=
  ⟨rear_heading_invariant [samplePoint "1" 0] (samplePoint "1" 0)
      { idx := 0, front := false, viewer := true } rfl rfl,
    rear_heading_invariant [samplePoint "2" 359] (samplePoint "2" 359)
      { idx := 0, front := false, viewer := true } rfl rfl⟩

/-- C2: for every dataset, the sequence returned for `seq_front` lists
exactly the ids `point{id}_front` in dataset order, the one for
`seq_rear` lists `point{id}_rear` in dataset order, and both lengths
equal the dataset size. -/
theorem sequences_mirror_dataset (data : List SurveyPoint) :
    getSequence data "seq_front" =
      Except.ok { id := "seq_front"
                  image_ids := data.map fun p => "point" ++ p.id ++ "_front" } ∧
    getSequence data "seq_rear" =
      Except.ok { id := "seq_rear"
                  image_ids := data.map fun p => "point" ++ p.id ++ "_rear" } ∧
    (seqFront data).image_ids.length = data.length ∧
    (seqRear data).image_ids.length = data.length := by
  refine ⟨?_, ?_, ?_, ?_⟩ <;>
    simp [getSequence, jsMapGet, sequencesMap, seqFront, seqRear,
      frontImages, rearImages, frontImage, rearImage, createImageEnt,
      List.map_map, Function.comp]

/-- C3: the id-batch query preserves the input's length and order, each
position carries the requested id, a known id resolves to its stored
ImageEntity, an unknown id resolves to the explicit `null` node marker
rather than being dropped, and the operation always resolves. -/
theorem getImages_positional (data : List SurveyPoint) (ids : List String)
    (hnd : ((imagesMap data).map Prod.fst).Nodup) :
    ∃ res : List ImageResult, getImages data ids = Except.ok res ∧
      res.length = ids.length ∧
      res.map (·.node_id) = ids ∧
      (∀ (k : ℕ) id, ids[k]? = some id →
        res[k]? = some (ImageResult.mk (jsMapGet (imagesMap data) id) id)) ∧
      (∀ (k : ℕ) id e, ids[k]? = some id → (id, e) ∈ imagesMap data →
        res[k]? = some (ImageResult.mk (some e) id)) ∧
      (∀ (k : ℕ) id, ids[k]? = some id → id ∉ (imagesMap data).map Prod.fst →
        res[k]? = some (ImageResult.mk none id)) := by
  refine ⟨_, rfl, by simp, by simp [Function.comp_def], ?_, ?_, ?_⟩
  · intro k id hk
    simp [List.getElem?_map, hk]
  · intro k id e hk hmem
    simp [List.getElem?_map, hk, jsMapGet_of_nodup _ _ _ hnd hmem]
  · intro k id hk habs
    simp [List.getElem?_map, hk, jsMapGet_eq_none _ _ habs]

/-- Witness for C3: a known front id, a known rear id and an unknown id
on the concrete 3-point dataset. -/
theorem getImages_positional_witness :
    ∃ res : List ImageResult,
      getImages sampleData ["point1_front", "nope", "point3_rear"] =
        Except.ok res ∧
      res.length = ["point1_front", "nope", "point3_rear"].length ∧
      res.map (·.node_id) = ["point1_front", "nope", "point3_rear"] ∧
      (∀ (k : ℕ) id, ["point1_front", "nope", "point3_rear"][k]? = some id →
        res[k]? = some (ImageResult.mk (jsMapGet (imagesMap sampleData) id) id)) ∧
      (∀ (k : ℕ) id e, ["point1_front", "nope", "point3_rear"][k]? = some id →
        (id, e) ∈ imagesMap sampleData →
        res[k]? = some (ImageResult.mk (some e) id)) ∧
      (∀ (k : ℕ) id, ["point1_front", "nope", "point3_rear"][k]? = some id →
        id ∉ (imagesMap sampleData).map Prod.fst →
        res[k]? = some (ImageResult.mk none id)) :=
  getImages_positional sampleData ["point1_front", "nope", "point3_rear"]
    (by decide)

/-- C4: after construction every ImageEntity lands in the bucket of its
own cell and in no other bucket, bucket contents are always drawn from
the full image set, a cell nothing maps to yields the empty list, and
the cell query always resolves. -/
theorem spatial_partition (cellOf : ℚ → ℚ → ℕ) (data : List SurveyPoint) :
    (∀ i ∈ allImages data,
      i ∈ cellGet (buildCells cellOf (allImages data)) (imageCell cellOf i) ∧
      ∀ c, c ≠ imageCell cellOf i →
        i ∉ cellGet (buildCells cellOf (allImages data)) c) ∧
    (∀ c, ∀ i ∈ cellGet (buildCells cellOf (allImages data)) c,
      i ∈ allImages data) ∧
    (∀ c, (∀ i ∈ allImages data, imageCell cellOf i ≠ c) →
      getCoreImages cellOf data c = Except.ok (c, [])) ∧
    (∀ c, ∃ r, getCoreImages cellOf data c = Except.ok r) := by
  refine ⟨?_, ?_, ?_, fun c => ⟨_, rfl⟩⟩
  · intro i hi
    constructor
    · rw [cells_char]
      simp [List.mem_filter, hi]
    · intro c hc
      rw [cells_char]
      simp only [List.mem_filter, decide_eq_true_eq, not_and]
      intro _ hcell
      exact hc hcell.symm
  · intro c i hi
    rw [cells_char] at hi
    exact (List.mem_filter.mp hi).1
  · intro c hc
    unfold getCoreImages
    rw [cells_char]
    have : (allImages data).filter (fun i => imageCell cellOf i = c) = [] := by
      rw [List.filter_eq_nil_iff]
      intro i hi
      simpa using hc i hi
    rw [this]

/-- Witness for C4 on the concrete dataset with a concrete cell map. -/
theorem spatial_partition_witness :
    (∀ i ∈ allImages sampleData,
      i ∈ cellGet (buildCells (fun _ _ => 7) (allImages sampleData))
          (imageCell (fun _ _ => 7) i) ∧
      ∀ c, c ≠ imageCell (fun _ _ => 7) i →
        i ∉ cellGet (buildCells (fun _ _ => 7) (allImages sampleData)) c) ∧
    (∀ c, ∀ i ∈ cellGet (buildCells (fun _ _ => 7) (allImages sampleData)) c,
      i ∈ allImages sampleData) ∧
    (∀ c, (∀ i ∈ allImages sampleData, imageCell (fun _ _ => 7) i ≠ c) →
      getCoreImages (fun _ _ => 7) sampleData c = Except.ok (c, [])) ∧
    (∀ c, ∃ r, getCoreImages (fun _ _ => 7) sampleData c = Except.ok r) :=
  spatial_partition (fun _ _ => 7) sampleData

/-- C5: in every reachable NavigationState over a nonempty dataset the
current index is a valid dataset index, and `prev` at index 0 and `next`
at the last index leave the whole state unchanged (no wrapping). -/
theorem nav_index_invariant (data : List SurveyPoint) (s : NavState)
    (hne : data ≠ []) (hr : Reachable data s) :
    s.idx < data.length ∧
    (s.idx = 0 → step data s NavEv.prev = s) ∧
    (s.idx = data.length - 1 → step data s NavEv.next = s) := by
  have hlen : 0 < data.length := List.length_pos.mpr hne
  refine ⟨?_, ?_, ?_⟩
  · induction hr with
    | init => exact hlen
    | next s e hs hv ih =>
      cases e with
      | markerClick i => simpa [step] using hv
      | closeViewer => simpa [step] using ih
      | prev =>
        by_cases h : s.idx > 0
        · simp only [step, if_pos h]
          omega
        · simpa [step, h] using ih
      | next =>
        by_cases h : s.idx < data.length - 1
        · simp only [step, if_pos h]
          omega
        · simpa [step, h] using ih
      | switchView => simpa [step] using ih
      | engineImage pointId imageId =>
        cases hfind : data.findIdx? (fun p => p.id = pointId) with
        | some i =>
          have := (List.findIdx?_eq_some_iff_findIdx_eq.mp hfind).1
          simpa [step, hfind] using this
        | none => simpa [step, hfind] using ih
  · intro h0
    simp [step, h0]
  · intro hlast
    simp [step, hlast]

/-- Witness for C5 at the initial state of the concrete dataset. -/
theorem nav_index_invariant_witness :
    ({ idx := 0, front := true, viewer := false } : NavState).idx <
      sampleData.length ∧
    (({ idx := 0, front := true, viewer := false } : NavState).idx = 0 →
      step sampleData { idx := 0, front := true, viewer := false }
        NavEv.prev = { idx := 0, front := true, viewer := false }) ∧
    (({ idx := 0, front := true, viewer := false } : NavState).idx =
        sampleData.length - 1 →
      step sampleData { idx := 0, front := true, viewer := false }
        NavEv.next = { idx := 0, front := true, viewer := false }) :=
  nav_index_invariant sampleData _ (by decide) Reachable.init

/-- C6, counterexample: from a viewer-active state, `switchView` changes
`isShowingFront` but issues neither the minimap recenter nor the
map-marker restyle, so the claim "every transition that changes
`currentPointIndex` or `isShowingFront` is followed by all four display
refreshes" fails on the code. -/
theorem switchView_refreshes_counterexample :
    (step sampleData { idx := 0, front := true, viewer := true }
        NavEv.switchView).front ≠
      ({ idx := 0, front := true, viewer := true } : NavState).front ∧
    Refresh.minimap ∉
      performedRefreshes sampleData { idx := 0, front := true, viewer := true }
        NavEv.switchView ∧
    Refresh.markerHighlight ∉
      performedRefreshes sampleData { idx := 0, front := true, viewer := true }
        NavEv.switchView := by
  refine ⟨by decide, by decide, by decide⟩

/-- C6, amended: every transition that changes `currentPointIndex` or
`isShowingFront` — other than `switchView`, and other than an
engine-reported image arriving while the viewer is not active — is
immediately followed by all four display refreshes; `switchView` is
followed by exactly the imagery-surface and info-panel refreshes. -/
theorem refreshes_follow_state_changes (data : List SurveyPoint)
    (s : NavState) (e : NavEv) (hsv : e ≠ NavEv.switchView)
    (heng : ∀ pid imgId, e = NavEv.engineImage pid imgId → s.viewer = true)
    (hch : (step data s e).idx ≠ s.idx ∨ (step data s e).front ≠ s.front) :
    (Refresh.imagery ∈ performedRefreshes data s e ∧
      Refresh.infoPanel ∈ performedRefreshes data s e ∧
      Refresh.minimap ∈ performedRefreshes data s e ∧
      Refresh.markerHighlight ∈ performedRefreshes data s e) ∧
    performedRefreshes data s NavEv.switchView =
      [Refresh.imagery, Refresh.infoPanel] := by
  refine ⟨?_, rfl⟩
  cases e with
  | markerClick i => simp [performedRefreshes]
  | closeViewer => simp [step] at hch
  | prev =>
    by_cases h : s.idx > 0
    · simp [performedRefreshes, h]
    · simp [step, h] at hch
  | next =>
    by_cases h : s.idx < data.length - 1
    · simp [performedRefreshes, h]
    · simp [step, h] at hch
  | switchView => exact absurd rfl hsv
  | engineImage pointId imageId =>
    have hv := heng pointId imageId rfl
    cases hfind : data.findIdx? (fun p => p.id = pointId) with
    | some i => simp [performedRefreshes, hfind, hv]
    | none => simp [step, hfind] at hch

/-- Witness for the amended C6: a `next` from index 0 on the concrete
dataset changes the index and issues all four refreshes. -/
theorem refreshes_follow_state_changes_witness :
    ((Refresh.imagery ∈ performedRefreshes sampleData
        { idx := 0, front := true, viewer := true } NavEv.next ∧
      Refresh.infoPanel ∈ performedRefreshes sampleData
        { idx := 0, front := true, viewer := true } NavEv.next ∧
      Refresh.minimap ∈ performedRefreshes sampleData
        { idx := 0, front := true, viewer := true } NavEv.next ∧
      Refresh.markerHighlight ∈ performedRefreshes sampleData
        { idx := 0, front := true, viewer := true } NavEv.next) ∧
    performedRefreshes sampleData { idx := 0, front := true, viewer := true }
        NavEv.switchView = [Refresh.imagery, Refresh.infoPanel]) :=
  refreshes_follow_state_changes sampleData
    { idx := 0, front := true, viewer := true } NavEv.next (by decide)
    (fun _ _ h => nomatch h) (Or.inl (by decide))

/-- C7: from any reachable viewer-active state, `switchView` twice
restores the whole state — hence the originally displayed image id —
and a single `switchView` toggles the side and preserves the index. -/
theorem switchView_involution (data : List SurveyPoint) (s : NavState)
    (_hr : Reachable data s) (_hv : s.viewer = true) :
    step data (step data s NavEv.switchView) NavEv.switchView = s ∧
    displayedImageId data
        (step data (step data s NavEv.switchView) NavEv.switchView) =
      displayedImageId data s ∧
    (step data s NavEv.switchView).front = !s.front ∧
    (step data s NavEv.switchView).idx = s.idx := by
  have h1 : step data (step data s NavEv.switchView) NavEv.switchView = s := by
    simp [step]
  exact ⟨h1, by rw [h1], by simp [step], by simp [step]⟩

/-- Witness for C7 at the viewer state entered by clicking marker 0. -/
theorem switchView_involution_witness :
    step sampleData
        (step sampleData { idx := 0, front := true, viewer := true }
          NavEv.switchView) NavEv.switchView =
      { idx := 0, front := true, viewer := true } ∧
    displayedImageId sampleData
        (step sampleData
          (step sampleData { idx := 0, front := true, viewer := true }
            NavEv.switchView) NavEv.switchView) =
      displayedImageId sampleData { idx := 0, front := true, viewer := true } ∧
    (step sampleData { idx := 0, front := true, viewer := true }
        NavEv.switchView).front =
      !({ idx := 0, front := true, viewer := true } : NavState).front ∧
    (step sampleData { idx := 0, front := true, viewer := true }
        NavEv.switchView).idx =
      ({ idx := 0, front := true, viewer := true } : NavState).idx :=
  switchView_involution sampleData { idx := 0, front := true, viewer := true }
    (Reachable.next _ (NavEv.markerClick 0) Reachable.init
      (show (0 : ℕ) < sampleData.length by decide)) rfl

/-- C8: the sequence query fails (with the not-found rejection) exactly
when the id is neither `seq_front` nor `seq_rear`, and succeeds with the
corresponding sequence on those two ids. -/
theorem getSequence_notfound_iff (data : List SurveyPoint)
    (sequenceId : String) :
    ((∃ e, getSequence data sequenceId = Except.error e) ↔
      sequenceId ≠ "seq_front" ∧ sequenceId ≠ "seq_rear") ∧
    getSequence data "seq_front" = Except.ok (seqFront data) ∧
    getSequence data "seq_rear" = Except.ok (seqRear data) := by
  refine ⟨?_, by simp [getSequence, jsMapGet, sequencesMap],
    by simp [getSequence, jsMapGet, sequencesMap]⟩
  by_cases h1 : sequenceId = "seq_front"
  · simp [getSequence, jsMapGet, sequencesMap, h1]
  · by_cases h2 : sequenceId = "seq_rear"
    · simp [getSequence, jsMapGet, sequencesMap, h2]
    · have h1' : ("seq_front" : String) ≠ sequenceId := fun h => h1 h.symm
      have h2' : ("seq_rear" : String) ≠ sequenceId := fun h => h2 h.symm
      simp [getSequence, jsMapGet, sequencesMap, h1, h2, h1', h2']

/-- Witness for C8 at a concrete unknown id. -/
theorem getSequence_notfound_iff_witness :
    ((∃ e, getSequence sampleData "seq_bogus" = Except.error e) ↔
      ("seq_bogus" : String) ≠ "seq_front" ∧
        ("seq_bogus" : String) ≠ "seq_rear") ∧
    getSequence sampleData "seq_front" = Except.ok (seqFront sampleData) ∧
    getSequence sampleData "seq_rear" = Except.ok (seqRear sampleData) :=
  getSequence_notfound_iff sampleData "seq_bogus"

/-- A network that answers every URL with an HTTP 404 response. -/
def fetch404 : String → FetchResult :=
  fun _ => FetchResult.response { status := 404, body := [] }

/-- A network whose fetch rejects with a bare transport error. -/
def fetchBoom : String → FetchResult :=
  fun _ => FetchResult.transportError "NetworkError"

/-- C9, counterexample: on a 404 the rejection carries the URL but not
the response status (the message is `Failed to load image: <url>`,
in which no digit of 404 occurs), and on a transport error the original
rejection is rethrown unchanged, carrying not even the URL — so the
claim that the failure carries both the URL and the status fails. -/
theorem getImageBuffer_counterexample :
    (getImageBuffer fetch404 "u").2 =
      Except.error "Failed to load image: u" ∧
    ¬ ("404".toList <:+: ("Failed to load image: u").toList) ∧
    (getImageBuffer fetchBoom "u").2 = Except.error "NetworkError" ∧
    ¬ ("u".toList <:+: ("NetworkError").toList) := by
  refine ⟨rfl, by decide, rfl, by decide⟩

/-- C9, amended: `getImageBuffer` performs exactly one fetch (no retry)
and always resolves or rejects (no uncaught exception); on a success
response it resolves with the body bytes; on a non-success response it
rejects with `Failed to load image: <url>`, which carries the URL but
not the status; on a transport error it rethrows that error unchanged. -/
theorem getImageBuffer_spec (fetch : String → FetchResult) (url : String) :
    (getImageBuffer fetch url).1 = [url] ∧
    (∀ r, fetch url = FetchResult.response r → respOk r = true →
      (getImageBuffer fetch url).2 = Except.ok r.body) ∧
    (∀ r, fetch url = FetchResult.response r → respOk r = false →
      (getImageBuffer fetch url).2 =
          Except.error ("Failed to load image: " ++ url) ∧
        url.toList <:+: ("Failed to load image: " ++ url).toList) ∧
    (∀ msg, fetch url = FetchResult.transportError msg →
      (getImageBuffer fetch url).2 = Except.error msg) := by
  refine ⟨?_, ?_, ?_, ?_⟩
  · cases hf : fetch url with
    | response r =>
      by_cases hok : respOk r <;> simp [getImageBuffer, hf, hok]
    | transportError msg => simp [getImageBuffer, hf]
  · intro r hf hok
    simp [getImageBuffer, hf, hok]
  · intro r hf hok
    refine ⟨by simp [getImageBuffer, hf, hok], ?_⟩
    have : url.toList <:+ ("Failed to load image: " ++ url).toList := by
      show url.data <:+ ("Failed to load image: " ++ url).data
      rw [String.data_append]
      exact List.suffix_append _ _
    exact this.isInfix
  · intro msg hf
    simp [getImageBuffer, hf]

/-- Witness for the amended C9: concrete 404 and transport scenarios. -/
theorem getImageBuffer_spec_witness :
    (getImageBuffer fetch404 "u").1 = ["u"] ∧
    ((getImageBuffer fetch404 "u").2 =
        Except.error ("Failed to load image: " ++ "u") ∧
      ("u").toList <:+: ("Failed to load image: " ++ "u").toList) ∧
    (getImageBuffer fetchBoom "u").2 = Except.error "NetworkError" :=
  ⟨(getImageBuffer_spec fetch404 "u").1,
    (getImageBuffer_spec fetch404 "u").2.2.1
      { status := 404, body := [] } rfl rfl,
    (getImageBuffer_spec fetchBoom "u").2.2.2 "NetworkError" rfl⟩

/-- C10: both CSV-loader variants keep only rows whose required fields
are all truthy, so a row whose `heading_front`, `lat` or `long` is the
number 0 is dropped — 0 being falsy in JS — and such survey points
never reach the core. -/
theorem csv_filter_drops_falsy (rows : List CsvRow) (r : CsvRow)
    (hz : r.heading_front = JSVal.num 0 ∨ r.lat = JSVal.num 0 ∨
      r.long = JSVal.num 0) :
    r ∉ rows.filter validRowGraph ∧
    r ∉ rows.filter validRowFlat ∧
    (∀ r2 ∈ rows.filter validRowGraph,
      truthy r2.id ∧ truthy r2.lat ∧ truthy r2.long ∧
        truthy r2.heading_front) ∧
    (∀ r2 ∈ rows.filter validRowFlat,
      truthy r2.id ∧ truthy r2.lat ∧ truthy r2.long ∧
        truthy r2.heading_front ∧ truthy r2.front ∧ truthy r2.rear) := by
  have hfalse : validRowGraph r = false := by
    rcases hz with h | h | h <;>
      simp [validRowGraph, truthy, h]
  have hfalse2 : validRowFlat r = false := by
    rcases hz with h | h | h <;>
      simp [validRowFlat, truthy, h]
  refine ⟨?_, ?_, ?_, ?_⟩
  · intro hmem
    have := (List.mem_filter.mp hmem).2
    rw [hfalse] at this
    cases this
  · intro hmem
    have := (List.mem_filter.mp hmem).2
    rw [hfalse2] at this
    cases this
  · intro r2 hmem
    have := (List.mem_filter.mp hmem).2
    simpa [validRowGraph, and_assoc] using this
  · intro r2 hmem
    have := (List.mem_filter.mp hmem).2
    simpa [validRowFlat, and_assoc] using this

/-- A CSV row whose heading is the (falsy) number 0 but is otherwise
fully populated and geometrically valid. -/
def zeroHeadingRow : CsvRow :=
  { id := JSVal.num 4, lat := JSVal.num 10, long := JSVal.num 20
    heading_front := JSVal.num 0
    front := JSVal.str "4f.jpg", rear := JSVal.str "4r.jpg" }

/-- Witness for C10: the zero-heading row is dropped by both variants. -/
theorem csv_filter_drops_falsy_witness :
    zeroHeadingRow ∉ [zeroHeadingRow].filter validRowGraph ∧
    zeroHeadingRow ∉ [zeroHeadingRow].filter validRowFlat ∧
    (∀ r2 ∈ [zeroHeadingRow].filter validRowGraph,
      truthy r2.id ∧ truthy r2.lat ∧ truthy r2.long ∧
        truthy r2.heading_front) ∧
    (∀ r2 ∈ [zeroHeadingRow].filter validRowFlat,
      truthy r2.id ∧ truthy r2.lat ∧ truthy r2.long ∧
        truthy r2.heading_front ∧ truthy r2.front ∧ truthy r2.rear) :=
  csv_filter_drops_falsy [zeroHeadingRow] zeroHeadingRow (Or.inl rfl)

end RoadViewer
